import Mathlib

/-!
# Shallow embedding of `gtin/validator.py` (ribeiroti/gtin-validator)

Python strings are modelled as `List Char`; the public entry points accept
either a string or an (arbitrary-precision, signed) integer, modelled by the
sum type `PyVal`.  Python exceptions are modelled with `Except PyErr`:
`TypeError` (e.g. `len` applied to an integer) and `ValueError` (e.g. `int`
applied to text that is not an integer literal).

The character-class predicates (`str.isdigit`, `str.strip` whitespace, the
digits accepted by `int(...)`) are modelled over the ASCII range that GTIN
codes inhabit; the Unicode extensions of those Python predicates are outside
the scope of this development.
-/

/-- A Python exception kind raised by the validator's code paths. -/
inductive PyErr where
  | typeError
  | valueError
deriving DecidableEq

/-- A Python value passed to the public API: a string (`List Char`) or an
integer. -/
inductive PyVal where
  | int (n : Int)
  | str (s : List Char)
deriving DecidableEq

instance {ε α : Type} [DecidableEq ε] [DecidableEq α] : DecidableEq (Except ε α) :=
  fun a b =>
    match a, b with
    | .ok x, .ok y =>
      if h : x = y then .isTrue (congrArg Except.ok h)
      else .isFalse (fun he => h (Except.ok.inj he))
    | .error x, .error y =>
      if h : x = y then .isTrue (congrArg Except.error h)
      else .isFalse (fun he => h (Except.error.inj he))
    | .ok _, .error _ => .isFalse (fun he => Except.noConfusion he)
    | .error _, .ok _ => .isFalse (fun he => Except.noConfusion he)

/-- ASCII decimal digit character (code points 48–57).  Models Python's
per-character digit test used by `str.isdigit` and by `int(...)` on the
ASCII range. -/
def pyIsDigitChar (c : Char) : Bool := 48 ≤ c.toNat && c.toNat ≤ 57

/-- Numeric value of a digit character: models Python's `int(c)` for a
single digit character `c`. -/
def digitVal (c : Char) : Nat := c.toNat - 48

/-- ASCII whitespace stripped by Python's `str.strip()`:
space, tab, newline, vertical tab, form feed, carriage return. -/
def isPySpace (c : Char) : Bool :=
  c.toNat = 32 || c.toNat = 9 || c.toNat = 10 || c.toNat = 11 ||
  c.toNat = 12 || c.toNat = 13

/-- Python `str.strip()`: drop whitespace from both ends. -/
def pyStrip (s : List Char) : List Char :=
  ((s.dropWhile isPySpace).reverse.dropWhile isPySpace).reverse

/-- Python `str.zfill(w)`: left-pad with `'0'` to width `w`; a leading
`'+'`/`'-'` sign stays in front of the inserted zeros; no truncation. -/
def zfill (s : List Char) (w : Nat) : List Char :=
  if w ≤ s.length then s
  else
    match s with
    | [] => List.replicate w '0'
    | c :: rest =>
      if c.toNat = 43 ∨ c.toNat = 45 then
        c :: (List.replicate (w - s.length) '0' ++ rest)
      else
        List.replicate (w - s.length) '0' ++ s

/-- Digit-sequence parser used by `pyInt`: consumes the whole list, which
must be digits optionally separated by single underscores (Python 3's
`int(...)` grouping rule); `acc` is the value of digits already read. -/
def parseDigitsCore : Nat → List Char → Option Nat
  | acc, [] => some acc
  | acc, [c] => if pyIsDigitChar c then some (10 * acc + digitVal c) else none
  | acc, c :: d :: rest =>
    if pyIsDigitChar c then parseDigitsCore (10 * acc + digitVal c) (d :: rest)
    else if c.toNat = 95 ∧ pyIsDigitChar d then
      parseDigitsCore (10 * acc + digitVal d) rest
    else none

/-- Nonempty digit sequence (possibly with internal underscores); the first
character must be a digit. -/
def parseDigits : List Char → Option Nat
  | [] => none
  | c :: rest => if pyIsDigitChar c then parseDigitsCore (digitVal c) rest else none

/-- Sign-and-digits parser applied after whitespace stripping. -/
def pyIntAux : List Char → Option Int
  | [] => none
  | c :: rest =>
    if c.toNat = 43 then (parseDigits rest).map (fun n => (n : Int))
    else if c.toNat = 45 then (parseDigits rest).map (fun n => -(n : Int))
    else (parseDigits (c :: rest)).map (fun n => (n : Int))

/-- Python `int(s)` on a string: strip whitespace, optional single sign,
then a digit sequence; `none` models the `ValueError` raised otherwise. -/
def pyInt (s : List Char) : Option Int := pyIntAux (pyStrip s)

/-- Python `str(n)` for an integer `n`. -/
def intStr (n : Int) : List Char :=
  if n < 0 then '-' :: (Nat.repr n.natAbs).data else (Nat.repr n.toNat).data

/-- `_clean(code, fill)`: render an integer as text, or remove `'-'` and
strip whitespace from a string, then `zfill` to width `fill`.  (The
`TypeError` arm for other input types is unrepresentable in `PyVal`.) -/
def pyClean : PyVal → Nat → List Char
  | .int n, fill => zfill (intStr n) fill
  | .str s, fill => zfill (pyStrip (s.filter (fun c => !(c.toNat = 45 : Bool)))) fill

/-- The accumulator loop of `_gtin_checksum`: state is `(total, i)` where
`i` is the zero-based position; odd positions weigh 1, even positions 3. -/
def checksumLoop : Nat → Nat → List Char → Nat
  | total, _, [] => total
  | total, i, c :: rest =>
    checksumLoop (if i % 2 = 1 then total + digitVal c else total + 3 * digitVal c)
      (i + 1) rest

/-- `_gtin_checksum(code)`: weighted mod-10 total, then `(10 - total % 10) % 10`.
Faithful to the source on digit strings (its only guarded uses); Python's
per-character `int(c)` would raise on other characters, handled by
`gtinChecksumE` where reachable. -/
def gtin_checksum (code : List Char) : Nat :=
  (10 - (checksumLoop 0 0 code) % 10) % 10

/-- `_gtin_checksum` including the `ValueError` that `int(c)` raises on a
non-digit character (reachable from `add_check_digit`). -/
def gtinChecksumE (code : List Char) : Except PyErr Nat :=
  if code.all pyIsDigitChar then .ok (gtin_checksum code) else .error .valueError

/-- `_is_gtin_checksum_valid(code)`: `int(code[-1]) == _gtin_checksum(code[:-1])`.
Its one call site guards `code` to be a nonempty digit string, so the empty
case (Python `IndexError`) and non-digit last characters are unreachable. -/
def is_gtin_checksum_valid (code : List Char) : Bool :=
  match code.getLast? with
  | none => false
  | some c => digitVal c == gtin_checksum code.dropLast

/-- Python `str.isdigit()`: nonempty and all digit characters. -/
def pyIsdigit (s : List Char) : Bool := !s.isEmpty && s.all pyIsDigitChar

/-- `_is_valid_code(code)`: all-digit check, then length-class check, then
checksum verification. -/
def is_valid_code (code : List Char) : Bool :=
  if !(pyIsdigit code) then false
  else if !(decide (code.length ∈ ([8, 12, 13, 14, 18] : List Nat))) then false
  else is_gtin_checksum_valid code

/-- The literal reserved-GS1-3-digit list from `_is_valid_gtin_prefix`
(source line 106), verbatim. -/
def exclusionList : List Int :=
  [381, 382, 384, 386, 388, 390, 391, 392, 393, 394, 395, 396, 397, 398, 399,
   441, 442, 443, 444, 445, 446, 447, 448, 449, 472, 473,
   510, 511, 512, 513, 514, 515, 516, 517, 518, 519,
   522, 523, 524, 525, 526, 527, 532, 533, 534, 536, 537, 538,
   550, 551, 552, 553, 554, 555, 556, 557, 558, 559,
   561, 562, 563, 564, 565, 566, 567, 568,
   580, 581, 582, 583, 584, 585, 586, 587, 588, 589,
   591, 592, 593, 595, 596, 597, 598, 602, 605, 606, 607,
   610, 612, 614, 617, 630, 631, 632, 633, 634, 635, 636, 637, 638, 639,
   650, 651, 652, 653, 654, 655, 656, 657, 658, 659,
   660, 661, 662, 663, 664, 665, 666, 667, 668, 669,
   670, 671, 672, 673, 674, 675, 676, 677, 678, 679,
   680, 681, 682, 683, 684, 685, 686, 687, 688, 689,
   710, 711, 712, 713, 714, 715, 716, 717, 718, 719,
   720, 721, 722, 723, 724, 725, 726, 727, 728,
   747, 748, 749, 751, 752, 753, 756, 757, 758, 772, 774, 776,
   781, 782, 783, 785, 787, 788, 791, 792, 793, 794, 795, 796, 797, 798, 799,
   851, 852, 853, 854, 855, 856, 857, 861, 862, 863, 864, 866,
   881, 882, 883, 886, 887, 889, 891, 892, 894, 895, 897, 898,
   920, 921, 922, 923, 924, 925, 926, 927, 928, 929]

/-- The string body of `_is_valid_gtin_prefix(code)` (the Lean name
abbreviates the final word of the Python identifier).  The branch on the
original length either parses prefix digits with `int(...)` (whose failure
raises `ValueError`) and tests the reserved ranges, or returns `False` for
unrecognized lengths. -/
def is_valid_gtin_pfx_str (s : List Char) : Except PyErr Bool :=
    let length := s.length
    let cleaned_code := pyClean (.str s) 14
    if length = 8 then
      match pyInt (s.take 3) with
      | none => .error .valueError
      | some pfx =>
        if 0 ≤ pfx ∧ pfx ≤ 99 then .ok false
        else if 200 ≤ pfx ∧ pfx ≤ 299 then .ok false
        else .ok true
    else if length = 12 ∨ length = 13 ∨ length = 14 then
      match pyInt (cleaned_code.take 1) with
      | none => .error .valueError
      | some n1 =>
        match pyInt ((cleaned_code.drop 1).take 3) with
        | none => .error .valueError
        | some pfx =>
          if n1 > 8 then .ok false
          else if 20 ≤ pfx ∧ pfx ≤ 29 then .ok false
          else if 40 ≤ pfx ∧ pfx ≤ 59 then .ok false
          else if 200 ≤ pfx ∧ pfx ≤ 299 then .ok false
          else if 960 ≤ pfx ∧ pfx ≤ 969 then .ok false
          else if 980 ≤ pfx ∧ pfx ≤ 999 then .ok false
          else if pfx ∈ exclusionList then .ok false
          else .ok true
    else .ok false

/-- `_is_valid_gtin_prefix(code)` on a `PyVal`: `len(code)` on an integer
raises `TypeError`; a string goes to the length dispatch above. -/
def is_valid_gtin_pfx : PyVal → Except PyErr Bool
  | .int _ => .error .typeError
  | .str s => is_valid_gtin_pfx_str s

/-- `is_valid_GTIN(code)`: the composition root — the prefix gate first,
then `_is_valid_code` on the width-14 canonical form. -/
def is_valid_GTIN (code : PyVal) : Except PyErr Bool :=
  match is_valid_gtin_pfx code with
  | .ok true => .ok (is_valid_code (pyClean code 14))
  | .ok false => .ok false
  | .error e => .error e

/-- `add_check_digit(code)`: clean to width 13, append `str(_gtin_checksum)`. -/
def add_check_digit (code : PyVal) : Except PyErr (List Char) :=
  match gtinChecksumE (pyClean code 13) with
  | .ok ck => .ok (pyClean code 13 ++ (Nat.repr ck).data)
  | .error e => .error e

/-! ## Specification-side definitions

These mirror the wording of the natural-language specification, to be
compared with the source-derived definitions above. -/

/-- Spec-modelled weighted total: iterate left to right with zero-based
index `i`; weight 1 when `i` is odd, weight 3 when `i` is even. -/
def wtot : Nat → List Char → Nat
  | _, [] => 0
  | i, c :: rest =>
    (if i % 2 = 1 then digitVal c else 3 * digitVal c) + wtot (i + 1) rest

/-- Spec-modelled rejection condition for original length 8:
the 3-digit value lies in `[0,99]` or `[200,299]`. -/
def spec_rejected8 (p : Int) : Bool :=
  (decide (0 ≤ p) && decide (p ≤ 99)) || (decide (200 ≤ p) && decide (p ≤ 299))

/-- The inclusive integer range `[a, b]` as a list. -/
def rangeIncl (a b : Nat) : List Int :=
  (List.range (b + 1 - a)).map (fun k => ((a + k : Nat) : Int))

/-- Spec-modelled discrete exclusion set, written with the spec's compressed
ranges; proved below to enumerate exactly the source's literal list. -/
def specExclusionList : List Int :=
  [381, 382, 384, 386, 388] ++ rangeIncl 390 399 ++ rangeIncl 441 449 ++
  [472, 473] ++ rangeIncl 510 519 ++ rangeIncl 522 527 ++ rangeIncl 532 534 ++
  rangeIncl 536 538 ++ rangeIncl 550 559 ++ rangeIncl 561 568 ++
  rangeIncl 580 589 ++ rangeIncl 591 593 ++ rangeIncl 595 598 ++ [602] ++
  rangeIncl 605 607 ++ [610, 612, 614, 617] ++ rangeIncl 630 639 ++
  rangeIncl 650 689 ++ rangeIncl 710 728 ++ rangeIncl 747 749 ++
  rangeIncl 751 753 ++ rangeIncl 756 758 ++ [772, 774, 776] ++
  rangeIncl 781 783 ++ [785, 787, 788] ++ rangeIncl 791 799 ++
  rangeIncl 851 857 ++ rangeIncl 861 864 ++ [866] ++ rangeIncl 881 883 ++
  [886, 887, 889] ++ [891, 892, 894, 895, 897, 898] ++ rangeIncl 920 929

/-- Spec-modelled rejection condition for original lengths 12/13/14, over
the 3-digit value at canonical positions 1–3. -/
def spec_rejected_mid (p : Int) : Bool :=
  (decide (20 ≤ p) && decide (p ≤ 29)) || (decide (40 ≤ p) && decide (p ≤ 59)) ||
  (decide (200 ≤ p) && decide (p ≤ 299)) ||
  (decide (960 ≤ p) && decide (p ≤ 969)) ||
  (decide (980 ≤ p) && decide (p ≤ 999)) || decide (p ∈ specExclusionList)

/-- Value of an all-digit character list, most significant digit first. -/
def digitsToNat (l : List Char) : Nat := l.foldl (fun a c => 10 * a + digitVal c) 0

/-- The shared tail of the length-12/13/14 branch of the prefix validator,
as a function of the canonical (width-14) form only. -/
def midPfx (c : List Char) : Except PyErr Bool :=
  match pyInt (c.take 1) with
  | none => .error .valueError
  | some n1 =>
    match pyInt ((c.drop 1).take 3) with
    | none => .error .valueError
    | some pfx =>
      if n1 > 8 then .ok false
      else if 20 ≤ pfx ∧ pfx ≤ 29 then .ok false
      else if 40 ≤ pfx ∧ pfx ≤ 59 then .ok false
      else if 200 ≤ pfx ∧ pfx ≤ 299 then .ok false
      else if 960 ≤ pfx ∧ pfx ≤ 969 then .ok false
      else if 980 ≤ pfx ∧ pfx ≤ 999 then .ok false
      else if pfx ∈ exclusionList then .ok false
      else .ok true

/-! ## Helper lemmas -/

set_option maxRecDepth 4000 in
theorem specExclusionList_eq : specExclusionList = exclusionList := by decide

theorem checksumLoop_eq_wtot (l : List Char) :
    ∀ (t i : Nat), checksumLoop t i l = t + wtot i l := by
  induction l with
  | nil => intro t i; simp [checksumLoop, wtot]
  | cons c rest ih =>
    intro t i
    simp only [checksumLoop, wtot, ih]
    split <;> omega

theorem wtot_parity (l : List Char) :
    ∀ (i j : Nat), i % 2 = j % 2 → wtot i l = wtot j l := by
  induction l with
  | nil => intro i j _; rfl
  | cons c rest ih =>
    intro i j h
    simp only [wtot, h, ih (i + 1) (j + 1) (by omega)]

theorem gtin_checksum_eq_wtot (code : List Char) :
    gtin_checksum code = (10 - (wtot 0 code) % 10) % 10 := by
  simp [gtin_checksum, checksumLoop_eq_wtot]

theorem gtin_checksum_le_nine (code : List Char) : gtin_checksum code ≤ 9 := by
  have h : gtin_checksum code < 10 := Nat.mod_lt _ (by norm_num)
  omega

theorem dropWhile_noop (l : List Char) (h : ∀ c ∈ l, isPySpace c = false) :
    l.dropWhile isPySpace = l := by
  cases l with
  | nil => rfl
  | cons c rest =>
    rw [List.dropWhile_cons, h c (List.mem_cons_self c rest)]
    simp

theorem pyStrip_noop (l : List Char) (h : ∀ c ∈ l, isPySpace c = false) :
    pyStrip l = l := by
  unfold pyStrip
  rw [dropWhile_noop l h, dropWhile_noop l.reverse (by
    intro c hc; exact h c (List.mem_reverse.mp hc)), List.reverse_reverse]

theorem pyStrip_length_le (l : List Char) : (pyStrip l).length ≤ l.length := by
  unfold pyStrip
  calc ((l.dropWhile isPySpace).reverse.dropWhile isPySpace).reverse.length
      = ((l.dropWhile isPySpace).reverse.dropWhile isPySpace).length := by
        rw [List.length_reverse]
    _ ≤ (l.dropWhile isPySpace).reverse.length :=
        (List.dropWhile_sublist _).length_le
    _ = (l.dropWhile isPySpace).length := by rw [List.length_reverse]
    _ ≤ l.length := (List.dropWhile_sublist _).length_le

theorem digit_not_space {c : Char} (h : pyIsDigitChar c = true) :
    isPySpace c = false := by
  simp only [pyIsDigitChar, Bool.and_eq_true, decide_eq_true_eq] at h
  simp only [isPySpace, Bool.or_eq_false_iff, decide_eq_false_iff_not]
  omega

theorem digit_not_hyphen {c : Char} (h : pyIsDigitChar c = true) :
    (!(c.toNat = 45 : Bool)) = true := by
  simp only [pyIsDigitChar, Bool.and_eq_true, decide_eq_true_eq] at h
  simp only [Bool.not_eq_true', decide_eq_false_iff_not]
  omega

theorem zfill_length (s : List Char) (w : Nat) :
    (zfill s w).length = max w s.length := by
  unfold zfill
  split
  next h => omega
  next h =>
    match s with
    | [] => simp
    | c :: rest =>
      simp only [List.length_cons] at h ⊢
      split
      · simp only [List.length_cons, List.length_append, List.length_replicate]
        omega
      · simp only [List.length_append, List.length_replicate, List.length_cons]
        omega

theorem zfill_of_digits (s : List Char) (w : Nat)
    (h : ∀ c ∈ s, pyIsDigitChar c = true) :
    zfill s w = List.replicate (w - s.length) '0' ++ s := by
  unfold zfill
  split
  · have : w - s.length = 0 := by omega
    simp [this]
  · match s with
    | [] => simp
    | c :: rest =>
      have hc := h c (List.mem_cons_self c rest)
      simp only [pyIsDigitChar, Bool.and_eq_true, decide_eq_true_eq] at hc
      have : ¬(c.toNat = 43 ∨ c.toNat = 45) := by omega
      simp [this]

theorem filter_noop_of_digits (s : List Char) (h : ∀ c ∈ s, pyIsDigitChar c = true) :
    s.filter (fun c => !(c.toNat = 45 : Bool)) = s :=
  List.filter_eq_self.mpr (fun c hc => digit_not_hyphen (h c hc))

theorem pyClean_of_digits (s : List Char) (w : Nat)
    (h : ∀ c ∈ s, pyIsDigitChar c = true) :
    pyClean (.str s) w = List.replicate (w - s.length) '0' ++ s := by
  have he : pyClean (.str s) w
      = zfill (pyStrip (s.filter (fun c => !(c.toNat = 45 : Bool)))) w := rfl
  rw [he, filter_noop_of_digits s h,
    pyStrip_noop s (fun c hc => digit_not_space (h c hc)), zfill_of_digits s w h]

theorem parseDigitsCore_digits (l : List Char) :
    ∀ acc : Nat, (∀ c ∈ l, pyIsDigitChar c = true) →
      parseDigitsCore acc l
        = some (l.foldl (fun a c => 10 * a + digitVal c) acc) := by
  induction l with
  | nil => intro acc _; rfl
  | cons c rest ih =>
    intro acc h
    have hc : pyIsDigitChar c = true := h c (List.mem_cons_self _ _)
    cases rest with
    | nil => simp [parseDigitsCore, hc]
    | cons d rest2 =>
      have hstep : parseDigitsCore acc (c :: d :: rest2)
          = parseDigitsCore (10 * acc + digitVal c) (d :: rest2) := by
        simp [parseDigitsCore, hc]
      rw [hstep, ih _ (fun x hx => h x (List.mem_cons_of_mem _ hx))]
      rfl

theorem parseDigits_digits (l : List Char) (hne : l ≠ [])
    (h : ∀ c ∈ l, pyIsDigitChar c = true) :
    parseDigits l = some (digitsToNat l) := by
  cases l with
  | nil => exact absurd rfl hne
  | cons c rest =>
    have hc : pyIsDigitChar c = true := h c (List.mem_cons_self _ _)
    have hz : (10 : Nat) * 0 + digitVal c = digitVal c := by omega
    simp only [parseDigits, hc, if_true,
      parseDigitsCore_digits rest _ (fun x hx => h x (List.mem_cons_of_mem _ hx)),
      digitsToNat, List.foldl_cons, hz]

theorem pyInt_digits (l : List Char) (hne : l ≠ [])
    (h : ∀ c ∈ l, pyIsDigitChar c = true) :
    pyInt l = some ((digitsToNat l : Nat) : Int) := by
  unfold pyInt
  rw [pyStrip_noop l (fun c hc => digit_not_space (h c hc))]
  cases l with
  | nil => exact absurd rfl hne
  | cons c rest =>
    have hc : pyIsDigitChar c = true := h c (List.mem_cons_self _ _)
    have hcn : 48 ≤ c.toNat ∧ c.toNat ≤ 57 := by
      simpa [pyIsDigitChar, Bool.and_eq_true, decide_eq_true_eq] using hc
    have h43 : ¬ c.toNat = 43 := by omega
    have h45 : ¬ c.toNat = 45 := by omega
    simp only [pyIntAux, h43, if_false, h45,
      parseDigits_digits _ (by simp) h, Option.map_some']
    rfl

/-! ## Claim theorems -/

/-- C1: `is_valid_GTIN` returns `False` immediately when the prefix gate
answers `False`; when the gate answers `True` it canonicalizes to width 14
and returns `False` if the canonical form is not all-digit, `False` if its
length is not one of 8, 12, 13, 14, 18, and the checksum verification of
the canonical form otherwise. -/
theorem C1_is_valid_GTIN_composition (code : PyVal) :
    (is_valid_gtin_pfx code = .ok false → is_valid_GTIN code = .ok false) ∧
    (is_valid_gtin_pfx code = .ok true →
      (pyIsdigit (pyClean code 14) = false → is_valid_GTIN code = .ok false) ∧
      (pyIsdigit (pyClean code 14) = true →
        ¬ (pyClean code 14).length ∈ ([8, 12, 13, 14, 18] : List Nat) →
        is_valid_GTIN code = .ok false) ∧
      (pyIsdigit (pyClean code 14) = true →
        (pyClean code 14).length ∈ ([8, 12, 13, 14, 18] : List Nat) →
        is_valid_GTIN code = .ok (is_gtin_checksum_valid (pyClean code 14)))) := by
  constructor
  · intro h
    unfold is_valid_GTIN
    rw [h]
  · intro h
    have hv : is_valid_GTIN code = .ok (is_valid_code (pyClean code 14)) := by
      unfold is_valid_GTIN
      rw [h]
    refine ⟨?_, ?_, ?_⟩
    · intro h1
      rw [hv]
      simp [is_valid_code, h1]
    · intro h1 h2
      rw [hv]
      simp [is_valid_code, h1, h2]
    · intro h1 h2
      rw [hv]
      simp [is_valid_code, h1, h2]

/-- Witness for C1 at the real GTIN-13 `"4006381333931"`. -/
theorem C1_witness :
    is_valid_gtin_pfx (.str ("4006381333931".data)) = .ok true ∧
    pyIsdigit (pyClean (.str ("4006381333931".data)) 14) = true ∧
    is_valid_GTIN (.str ("4006381333931".data)) =
      .ok (is_gtin_checksum_valid (pyClean (.str ("4006381333931".data)) 14)) :=
  ⟨by decide, by decide,
    ((C1_is_valid_GTIN_composition (.str ("4006381333931".data))).2
      (by decide)).2.2 (by decide) (by decide)⟩

/-- C2: on digit strings the checksum is the left-to-right zero-indexed
weighted total (weight 1 at odd positions, 3 at even positions including 0)
folded into `(10 - total % 10) % 10`, a digit in `0..9`; and the checksum
verification holds iff the last character's value equals the checksum of
the code without its last character. -/
theorem C2_checksum_spec (s code : List Char)
    (_hs : ∀ c ∈ s, pyIsDigitChar c = true)
    (_hcode : ∀ c ∈ code, pyIsDigitChar c = true) (hne : code ≠ []) :
    gtin_checksum s = (10 - (wtot 0 s) % 10) % 10 ∧
    gtin_checksum s ≤ 9 ∧
    (is_gtin_checksum_valid code = true ↔
      digitVal (code.getLast hne) = gtin_checksum code.dropLast) := by
  refine ⟨gtin_checksum_eq_wtot s, gtin_checksum_le_nine s, ?_⟩
  unfold is_gtin_checksum_valid
  rw [List.getLast?_eq_getLast code hne]
  simp

/-- Witness for C2 at the payload `"400638133393"` and the full code
`"4006381333931"`. -/
theorem C2_witness :
    gtin_checksum ("400638133393".data)
      = (10 - (wtot 0 ("400638133393".data)) % 10) % 10 ∧
    gtin_checksum ("400638133393".data) ≤ 9 ∧
    (is_gtin_checksum_valid ("4006381333931".data) = true ↔
      digitVal (("4006381333931".data).getLast (by decide)) =
        gtin_checksum ("4006381333931".data).dropLast) :=
  C2_checksum_spec _ _ (by decide) (by decide) (by decide)

theorem spec_rejected_mid_iff (p : Int) :
    spec_rejected_mid p = true ↔
      ((20 ≤ p ∧ p ≤ 29) ∨ (40 ≤ p ∧ p ≤ 59) ∨ (200 ≤ p ∧ p ≤ 299) ∨
       (960 ≤ p ∧ p ≤ 969) ∨ (980 ≤ p ∧ p ≤ 999) ∨ p ∈ exclusionList) := by
  simp [spec_rejected_mid, specExclusionList_eq, or_assoc]

/-- C3: the prefix validator dispatches on the original input's length.
Length 8: reject iff the value of the first 3 original characters lies in
`[0,99]` or `[200,299]`.  Length 12/13/14: canonicalize to width 14, reject
if the first canonical digit exceeds 8, else reject iff the 3-digit value
at canonical positions 1–3 lies in the rejected ranges or the discrete
exclusion set (stated through `spec_rejected_mid`, whose range/table form
is proved equal to the source's literal list).  Other lengths: reject. -/
theorem C3_pfx_dispatch (s : List Char) :
    (s.length = 8 → ∀ p : Int, pyInt (s.take 3) = some p →
      is_valid_gtin_pfx (.str s) = .ok (!(spec_rejected8 p))) ∧
    ((s.length = 12 ∨ s.length = 13 ∨ s.length = 14) →
      ∀ n1 p : Int, pyInt ((pyClean (.str s) 14).take 1) = some n1 →
        pyInt (((pyClean (.str s) 14).drop 1).take 3) = some p →
        is_valid_gtin_pfx (.str s)
          = .ok (!(decide (8 < n1)) && !(spec_rejected_mid p))) ∧
    (¬ (s.length = 8 ∨ s.length = 12 ∨ s.length = 13 ∨ s.length = 14) →
      is_valid_gtin_pfx (.str s) = .ok false) := by
  refine ⟨?_, ?_, ?_⟩
  · intro h8 p hp
    show is_valid_gtin_pfx_str s = _
    unfold is_valid_gtin_pfx_str
    rw [if_pos h8, hp]
    dsimp only
    have hchar : spec_rejected8 p = true ↔
        ((0 ≤ p ∧ p ≤ 99) ∨ (200 ≤ p ∧ p ≤ 299)) := by
      simp [spec_rejected8]
    split_ifs with h1 h2
    · rw [hchar.mpr (Or.inl h1)]; rfl
    · rw [hchar.mpr (Or.inr h2)]; rfl
    · have hfalse : spec_rejected8 p = false := by
        cases hb : spec_rejected8 p
        · rfl
        · rcases hchar.mp hb with h | h
          · exact absurd h h1
          · exact absurd h h2
      rw [hfalse]; rfl
  · intro hmid n1 p hn1 hp
    show is_valid_gtin_pfx_str s = _
    unfold is_valid_gtin_pfx_str
    have h8 : ¬ s.length = 8 := by omega
    rw [if_neg h8, if_pos hmid, hn1, hp]
    dsimp only
    split_ifs with hgt h1 h2 h3 h4 h5 h6
    · rw [decide_eq_true hgt]; rfl
    · rw [(spec_rejected_mid_iff p).mpr (Or.inl h1), decide_eq_false hgt]; rfl
    · rw [(spec_rejected_mid_iff p).mpr (Or.inr (Or.inl h2)),
        decide_eq_false hgt]
      rfl
    · rw [(spec_rejected_mid_iff p).mpr (Or.inr (Or.inr (Or.inl h3))),
        decide_eq_false hgt]
      rfl
    · rw [(spec_rejected_mid_iff p).mpr (Or.inr (Or.inr (Or.inr (Or.inl h4)))),
        decide_eq_false hgt]
      rfl
    · rw [(spec_rejected_mid_iff p).mpr
        (Or.inr (Or.inr (Or.inr (Or.inr (Or.inl h5))))), decide_eq_false hgt]
      rfl
    · rw [(spec_rejected_mid_iff p).mpr
        (Or.inr (Or.inr (Or.inr (Or.inr (Or.inr h6))))), decide_eq_false hgt]
      rfl
    · have hfalse : spec_rejected_mid p = false := by
        cases hb : spec_rejected_mid p
        · rfl
        · rcases (spec_rejected_mid_iff p).mp hb with h | h | h | h | h | h
          · exact absurd h h1
          · exact absurd h h2
          · exact absurd h h3
          · exact absurd h h4
          · exact absurd h h5
          · exact absurd h h6
      rw [hfalse, decide_eq_false hgt]; rfl
  · intro hother
    show is_valid_gtin_pfx_str s = _
    unfold is_valid_gtin_pfx_str
    rw [if_neg (by omega : ¬ s.length = 8), if_neg (by omega :
      ¬ (s.length = 12 ∨ s.length = 13 ∨ s.length = 14))]

/-- Witness for C3 at the length-8 input `"01234567"` (3-digit value 12,
in the rejected range `[0,99]`). -/
theorem C3_witness :
    ("01234567".data).length = 8 ∧
    pyInt (("01234567".data).take 3) = some 12 ∧
    is_valid_gtin_pfx (.str ("01234567".data)) = .ok (!(spec_rejected8 12)) :=
  ⟨by decide, by decide,
    (C3_pfx_dispatch ("01234567".data)).1 (by decide) 12 (by decide)⟩

theorem pfx_str_never_typeError (s : List Char) :
    (∃ b, is_valid_gtin_pfx_str s = .ok b) ∨
      is_valid_gtin_pfx_str s = .error .valueError := by
  unfold is_valid_gtin_pfx_str
  by_cases h8 : s.length = 8
  · rw [if_pos h8]
    cases hpi : pyInt (s.take 3) with
    | none => exact Or.inr rfl
    | some p =>
      dsimp only
      split_ifs <;> exact Or.inl ⟨_, rfl⟩
  · rw [if_neg h8]
    by_cases hmid : s.length = 12 ∨ s.length = 13 ∨ s.length = 14
    · rw [if_pos hmid]
      cases hn1 : pyInt ((pyClean (.str s) 14).take 1) with
      | none => exact Or.inr rfl
      | some n1 =>
        cases hp : pyInt (((pyClean (.str s) 14).drop 1).take 3) with
        | none => exact Or.inr rfl
        | some p =>
          dsimp only
          split_ifs <;> exact Or.inl ⟨_, rfl⟩
    · rw [if_neg hmid]
      exact Or.inl ⟨_, rfl⟩

theorem is_valid_GTIN_str_of_pfx_ok (s : List Char) (b : Bool)
    (hb : is_valid_gtin_pfx_str s = .ok b) :
    ∃ b2, is_valid_GTIN (.str s) = .ok b2 := by
  cases b
  · exact ⟨false, by
      unfold is_valid_GTIN
      rw [show is_valid_gtin_pfx (.str s) = .ok false from hb]⟩
  · exact ⟨is_valid_code (pyClean (.str s) 14), by
      unfold is_valid_GTIN
      rw [show is_valid_gtin_pfx (.str s) = .ok true from hb]⟩

theorem pyClean_digits_all (s : List Char) (w : Nat)
    (h : ∀ c ∈ s, pyIsDigitChar c = true) :
    ∀ c ∈ pyClean (.str s) w, pyIsDigitChar c = true := by
  rw [pyClean_of_digits s w h]
  intro c hc
  rcases List.mem_append.mp hc with hc | hc
  · rw [(List.mem_replicate.mp hc).2]
    decide
  · exact h c hc

theorem pyClean_digits_length (s : List Char) (w : Nat)
    (h : ∀ c ∈ s, pyIsDigitChar c = true) :
    (pyClean (.str s) w).length = max w s.length := by
  rw [pyClean_of_digits s w h]
  simp only [List.length_append, List.length_replicate]
  omega

theorem pfx_str_ok_of_digits (s : List Char)
    (h : ∀ c ∈ s, pyIsDigitChar c = true) :
    ∃ b, is_valid_gtin_pfx_str s = .ok b := by
  unfold is_valid_gtin_pfx_str
  by_cases h8 : s.length = 8
  · rw [if_pos h8]
    have hlen : (s.take 3).length = 3 := by
      rw [List.length_take, h8]
      omega
    have hne : s.take 3 ≠ [] := List.ne_nil_of_length_pos (by omega)
    rw [pyInt_digits _ hne (fun c hc => h c (List.take_subset 3 s hc))]
    dsimp only
    split_ifs <;> exact ⟨_, rfl⟩
  · rw [if_neg h8]
    by_cases hmid : s.length = 12 ∨ s.length = 13 ∨ s.length = 14
    · rw [if_pos hmid]
      have hcd := pyClean_digits_all s 14 h
      have hcl : (pyClean (.str s) 14).length = 14 := by
        rw [pyClean_digits_length s 14 h]
        omega
      have ht1 : ((pyClean (.str s) 14).take 1).length = 1 := by
        rw [List.length_take, hcl]
        omega
      have ht3 : (((pyClean (.str s) 14).drop 1).take 3).length = 3 := by
        rw [List.length_take, List.length_drop, hcl]
        omega
      rw [pyInt_digits _ (List.ne_nil_of_length_pos (by omega))
          (fun c hc => hcd c (List.take_subset 1 _ hc)),
        pyInt_digits _ (List.ne_nil_of_length_pos (by omega))
          (fun c hc => hcd c (List.drop_subset 1 _ (List.take_subset 3 _ hc)))]
      dsimp only
      split_ifs <;> exact ⟨_, rfl⟩
    · rw [if_neg hmid]
      exact ⟨_, rfl⟩

/-- C4 counterexample: the all-letter length-8 string `"aaaaaaaa"` makes
`is_valid_GTIN` raise `ValueError` (from `int(code[:3])`) instead of
returning `False`. -/
theorem C4_counterexample :
    is_valid_GTIN (.str ("aaaaaaaa".data)) = .error .valueError := by decide

/-- C4 amended: for every string input, `is_valid_GTIN` either returns a
boolean or raises `ValueError` (never `TypeError`); wrong length,
disallowed prefix and wrong checksum are reported as `False`, and all-digit
inputs never raise, but non-digit characters in the parsed prefix positions
raise `ValueError` rather than returning `False`. -/
theorem C4_str_no_crash_amended (s : List Char) :
    ((∃ b, is_valid_GTIN (.str s) = .ok b) ∨
      is_valid_GTIN (.str s) = .error .valueError) ∧
    ((∀ c ∈ s, pyIsDigitChar c = true) →
      ∃ b, is_valid_GTIN (.str s) = .ok b) := by
  constructor
  · rcases pfx_str_never_typeError s with ⟨b, hb⟩ | hb
    · exact Or.inl (is_valid_GTIN_str_of_pfx_ok s b hb)
    · refine Or.inr ?_
      unfold is_valid_GTIN
      rw [show is_valid_gtin_pfx (.str s) = .error .valueError from hb]
  · intro h
    obtain ⟨b, hb⟩ := pfx_str_ok_of_digits s h
    exact is_valid_GTIN_str_of_pfx_ok s b hb

/-- Witness for C4 at the all-digit input `"4006381333931"`. -/
theorem C4_witness :
    (∀ c ∈ ("4006381333931".data), pyIsDigitChar c = true) ∧
    (∃ b, is_valid_GTIN (.str ("4006381333931".data)) = .ok b) :=
  ⟨by decide, (C4_str_no_crash_amended ("4006381333931".data)).2 (by decide)⟩

/-- C5: the integer input `4006381333931` makes `is_valid_GTIN` raise
`TypeError` (from `len(code)` on an `int` in `_is_valid_gtin_prefix`),
while the string of the same digits validates to `True` — the code
contradicts its own integer-accepting normalizer contract. -/
theorem C5_int_input_type_error :
    is_valid_GTIN (.int 4006381333931) = .error .typeError ∧
    is_valid_GTIN (.str ("4006381333931".data)) = .ok true :=
  ⟨rfl, by decide⟩

/-- C6 counterexample: prepending one `'0'` to `"1"` shifts the weight
alternation and changes the check digit from 7 to 9. -/
theorem C6_counterexample :
    gtin_checksum ("01".data) ≠ gtin_checksum ("1".data) := by decide

theorem gtin_checksum_cons_zero_zero (t : List Char) :
    gtin_checksum ('0' :: '0' :: t) = gtin_checksum t := by
  rw [gtin_checksum_eq_wtot, gtin_checksum_eq_wtot]
  have hw : wtot 0 ('0' :: '0' :: t) = wtot 0 t := by
    simp only [wtot, show digitVal '0' = 0 from rfl]
    rw [wtot_parity t 2 0 (by omega)]
    simp
  rw [hw]

/-- C6 amended: prepending an even number of `'0'` characters never changes
the check digit (the weight pattern realigns); an odd number can change it,
as the counterexample `"1"` vs `"01"` shows. -/
theorem C6_even_zero_padding (d : List Char) (k : Nat) :
    gtin_checksum (List.replicate (2 * k) '0' ++ d) = gtin_checksum d := by
  induction k with
  | zero => simp
  | succ n ih =>
    have h2 : 2 * (n + 1) = (2 * n + 1) + 1 := by omega
    rw [h2, List.replicate_succ, List.replicate_succ, List.cons_append,
      List.cons_append, gtin_checksum_cons_zero_zero]
    exact ih

theorem zfill_noop (s : List Char) (w : Nat) (h : w ≤ s.length) :
    zfill s w = s := by
  unfold zfill
  rw [if_pos h]

theorem pyClean_length_ge (v : PyVal) (w : Nat) : w ≤ (pyClean v w).length := by
  cases v with
  | int n =>
    show w ≤ (zfill (intStr n) w).length
    rw [zfill_length]
    omega
  | str s =>
    show w ≤ (zfill (pyStrip (s.filter (fun c => !(c.toNat = 45 : Bool)))) w).length
    rw [zfill_length]
    omega

theorem repr_digit_eq (n : Nat) (h : n ≤ 9) :
    (Nat.repr n).data = [Char.ofNat (48 + n)] := by
  interval_cases n <;> rfl

theorem digitVal_ofNat (n : Nat) (h : n ≤ 9) :
    digitVal (Char.ofNat (48 + n)) = n := by
  interval_cases n <;> rfl

theorem pyIsDigitChar_ofNat (n : Nat) (h : n ≤ 9) :
    pyIsDigitChar (Char.ofNat (48 + n)) = true := by
  interval_cases n <;> rfl

/-- C7 counterexample: an input whose cleaned form has 15 characters yields
a 16-character result, not the claimed 14-character one; and an input whose
cleaned form contains a non-digit raises `ValueError` (from `int(c)` inside
`_gtin_checksum`) instead of returning any string at all. -/
theorem C7_counterexample :
    (add_check_digit (.str ("123456789012345".data))).map List.length
      = .ok 16 ∧
    add_check_digit (.str ("abcdefgh".data)) = .error .valueError :=
  ⟨by decide, by decide⟩

/-- C7 amended: `add_check_digit` canonicalizes to width 13 and, when the
canonical string is all digits, returns it with the checksum digit appended
— `canonical length + 1` characters, which is 14 exactly when the canonical
form has 13 characters; a canonical string containing a non-digit raises
`ValueError` instead; a cleaned input of 13 or more characters is kept
unchanged (never truncated), so longer inputs give longer results (no
prefix or structural validation is performed). -/
theorem C7_generation_amended (v : PyVal) :
    ((pyClean v 13).all pyIsDigitChar = true →
      add_check_digit v
        = .ok (pyClean v 13 ++ (Nat.repr (gtin_checksum (pyClean v 13))).data) ∧
      (∃ r, add_check_digit v = .ok r ∧ r.length = (pyClean v 13).length + 1) ∧
      ((pyClean v 13).length = 13 →
        ∃ r, add_check_digit v = .ok r ∧ r.length = 14)) ∧
    ((pyClean v 13).all pyIsDigitChar = false →
      add_check_digit v = .error .valueError) ∧
    13 ≤ (pyClean v 13).length ∧
    (∀ s : List Char, v = PyVal.str s →
      13 ≤ (pyStrip (s.filter (fun c => !(c.toNat = 45 : Bool)))).length →
      pyClean v 13 = pyStrip (s.filter (fun c => !(c.toNat = 45 : Bool)))) := by
  refine ⟨?_, ?_, pyClean_length_ge v 13, ?_⟩
  · intro h
    have hadd : add_check_digit v
        = .ok (pyClean v 13 ++ (Nat.repr (gtin_checksum (pyClean v 13))).data) := by
      unfold add_check_digit gtinChecksumE
      rw [if_pos h]
    have hlen1 : (Nat.repr (gtin_checksum (pyClean v 13))).data.length = 1 := by
      rw [repr_digit_eq _ (gtin_checksum_le_nine _)]
      rfl
    refine ⟨hadd, ⟨_, hadd, ?_⟩, ?_⟩
    · rw [List.length_append, hlen1]
    · intro h13
      refine ⟨_, hadd, ?_⟩
      rw [List.length_append, hlen1, h13]
  · intro h
    have hG : gtinChecksumE (pyClean v 13) = .error .valueError := by
      unfold gtinChecksumE
      rw [if_neg (by simp [h])]
    unfold add_check_digit
    rw [hG]
  · intro s hv hs
    rw [hv]
    show zfill (pyStrip (s.filter (fun c => !(c.toNat = 45 : Bool)))) 13 = _
    rw [zfill_noop _ _ hs]

/-- Witness for C7: the all-digit arm at the 15-digit input
`"123456789012345"` (cleaned form kept unchanged, result one character
longer) and the non-digit arm at `"abcXYZ"`. -/
theorem C7_witness :
    ((pyClean (.str ("123456789012345".data)) 13).all pyIsDigitChar = true ∧
      (∃ r, add_check_digit (.str ("123456789012345".data)) = .ok r ∧
        r.length = (pyClean (.str ("123456789012345".data)) 13).length + 1)) ∧
    ((pyClean (.str ("abcXYZ".data)) 13).all pyIsDigitChar = false ∧
      add_check_digit (.str ("abcXYZ".data)) = .error .valueError) :=
  ⟨⟨by decide,
    ((C7_generation_amended (.str ("123456789012345".data))).1 (by decide)).2.1⟩,
   ⟨by decide,
    (C7_generation_amended (.str ("abcXYZ".data))).2.1 (by decide)⟩⟩

theorem pfx_str_mid (s : List Char)
    (hs : s.length = 12 ∨ s.length = 13 ∨ s.length = 14) :
    is_valid_gtin_pfx_str s = midPfx (pyClean (.str s) 14) := by
  unfold is_valid_gtin_pfx_str midPfx
  rw [if_neg (by omega : ¬ s.length = 8), if_pos hs]

/-- C8 counterexample: removing a hyphen can change the original length
class — `"0-4006381333931"` (length 15) is rejected by the length dispatch
while `"04006381333931"` validates, so the two differ. -/
theorem C8_counterexample :
    is_valid_GTIN (.str ("0-4006381333931".data)) = .ok false ∧
    is_valid_GTIN (.str ("04006381333931".data)) = .ok true ∧
    is_valid_GTIN (.str ("0-4006381333931".data))
      ≠ is_valid_GTIN (.str ("04006381333931".data)) :=
  ⟨by decide, by decide, by decide⟩

/-- C8 amended: hyphens and surrounding whitespace are removed before the
canonical form is consulted, so two inputs with the same canonical form
give the same result whenever both original lengths select the
length-12/13/14 branch; the spec's example pair `"4-006381333931"` /
`"4006381333931"` (lengths 14 and 13) is such a pair and both are `True`.
Beyond that the invariance fails, because the original (uncleaned) length
drives the dispatch — see the counterexample. -/
theorem C8_clean_invariance_amended (s t : List Char)
    (hs : s.length = 12 ∨ s.length = 13 ∨ s.length = 14)
    (ht : t.length = 12 ∨ t.length = 13 ∨ t.length = 14)
    (hc : pyClean (.str s) 14 = pyClean (.str t) 14) :
    is_valid_GTIN (.str s) = is_valid_GTIN (.str t) := by
  unfold is_valid_GTIN
  rw [show is_valid_gtin_pfx (.str s) = midPfx (pyClean (.str s) 14) from
      pfx_str_mid s hs,
    show is_valid_gtin_pfx (.str t) = midPfx (pyClean (.str t) 14) from
      pfx_str_mid t ht, hc]

/-- Witness for C8 at the spec's example pair `"4-006381333931"` and
`"4006381333931"`. -/
theorem C8_witness :
    pyClean (.str ("4-006381333931".data)) 14
      = pyClean (.str ("4006381333931".data)) 14 ∧
    is_valid_GTIN (.str ("4-006381333931".data))
      = is_valid_GTIN (.str ("4006381333931".data)) ∧
    is_valid_GTIN (.str ("4-006381333931".data)) = .ok true :=
  ⟨by decide,
    C8_clean_invariance_amended ("4-006381333931".data) ("4006381333931".data)
      (by decide) (by decide) (by decide), by decide⟩

/-- C9: for a 13-character all-digit payload whose leading digit is at most
8 and whose 3-digit value at positions 1–3 is not rejected,
`add_check_digit` followed by `is_valid_GTIN` returns `True`. -/
theorem C9_roundtrip (p : List Char) (h13 : p.length = 13)
    (hd : ∀ c ∈ p, pyIsDigitChar c = true)
    (n1 pre : Int)
    (hn1 : pyInt (p.take 1) = some n1)
    (hpre : pyInt ((p.drop 1).take 3) = some pre)
    (hle : n1 ≤ 8) (hrej : spec_rejected_mid pre = false) :
    ∃ r, add_check_digit (.str p) = .ok r ∧ is_valid_GTIN (.str r) = .ok true := by
  have hclean13 : pyClean (.str p) 13 = p := by
    rw [pyClean_of_digits p 13 hd, h13]
    simp
  have hck9 : gtin_checksum p ≤ 9 := gtin_checksum_le_nine p
  have hrepr : (Nat.repr (gtin_checksum p)).data
      = [Char.ofNat (48 + gtin_checksum p)] := repr_digit_eq _ hck9
  have hG : gtinChecksumE p = .ok (gtin_checksum p) := by
    unfold gtinChecksumE
    rw [if_pos (List.all_eq_true.mpr hd)]
  have hadd : add_check_digit (.str p)
      = .ok (p ++ [Char.ofNat (48 + gtin_checksum p)]) := by
    unfold add_check_digit
    rw [hclean13, hG]
    dsimp only
    rw [hrepr]
  have hrd : ∀ c ∈ p ++ [Char.ofNat (48 + gtin_checksum p)],
      pyIsDigitChar c = true := by
    intro c hc
    rcases List.mem_append.mp hc with hc | hc
    · exact hd c hc
    · rw [List.mem_singleton.mp hc]
      exact pyIsDigitChar_ofNat _ hck9
  have hrl : (p ++ [Char.ofNat (48 + gtin_checksum p)]).length = 14 := by
    simp [h13]
  have hcleanr : pyClean (.str (p ++ [Char.ofNat (48 + gtin_checksum p)])) 14
      = p ++ [Char.ofNat (48 + gtin_checksum p)] := by
    rw [pyClean_of_digits _ 14 hrd, hrl]
    simp
  have hpfx : is_valid_gtin_pfx_str (p ++ [Char.ofNat (48 + gtin_checksum p)])
      = .ok true := by
    rw [pfx_str_mid _ (Or.inr (Or.inr hrl)), hcleanr]
    unfold midPfx
    rw [List.take_append_of_le_length (by omega), hn1,
      List.drop_append_of_le_length (by omega),
      List.take_append_of_le_length (by rw [List.length_drop]; omega), hpre]
    dsimp only
    have hnr : ¬ ((20 ≤ pre ∧ pre ≤ 29) ∨ (40 ≤ pre ∧ pre ≤ 59) ∨
        (200 ≤ pre ∧ pre ≤ 299) ∨ (960 ≤ pre ∧ pre ≤ 969) ∨
        (980 ≤ pre ∧ pre ≤ 999) ∨ pre ∈ exclusionList) := by
      intro hcon
      have hx := (spec_rejected_mid_iff pre).mpr hcon
      rw [hrej] at hx
      exact Bool.noConfusion hx
    rw [if_neg (by omega : ¬ n1 > 8),
      if_neg (fun hx => hnr (Or.inl hx)),
      if_neg (fun hx => hnr (Or.inr (Or.inl hx))),
      if_neg (fun hx => hnr (Or.inr (Or.inr (Or.inl hx)))),
      if_neg (fun hx => hnr (Or.inr (Or.inr (Or.inr (Or.inl hx))))),
      if_neg (fun hx => hnr (Or.inr (Or.inr (Or.inr (Or.inr (Or.inl hx)))))),
      if_neg (fun hx => hnr (Or.inr (Or.inr (Or.inr (Or.inr (Or.inr hx))))))]
  have hdig : pyIsdigit (p ++ [Char.ofNat (48 + gtin_checksum p)]) = true := by
    unfold pyIsdigit
    rw [List.all_eq_true.mpr hrd, Bool.and_true]
    simp
  have hchk : is_gtin_checksum_valid (p ++ [Char.ofNat (48 + gtin_checksum p)])
      = true := by
    unfold is_gtin_checksum_valid
    rw [List.getLast?_concat, List.dropLast_concat]
    dsimp only
    rw [digitVal_ofNat _ hck9]
    simp
  have hvc : is_valid_code (p ++ [Char.ofNat (48 + gtin_checksum p)]) = true := by
    unfold is_valid_code
    rw [hdig, hrl, hchk]
    rfl
  refine ⟨p ++ [Char.ofNat (48 + gtin_checksum p)], hadd, ?_⟩
  unfold is_valid_GTIN
  rw [show is_valid_gtin_pfx (.str (p ++ [Char.ofNat (48 + gtin_checksum p)]))
      = .ok true from hpfx, hcleanr, hvc]

set_option maxRecDepth 4000 in
/-- Witness for C9 at the payload `"0400638133393"` (leading digit 0,
prefix value 400, generated code `"04006381333931"`). -/
theorem C9_witness :
    (∀ c ∈ ("0400638133393".data), pyIsDigitChar c = true) ∧
    spec_rejected_mid 400 = false ∧
    (∃ r, add_check_digit (.str ("0400638133393".data)) = .ok r ∧
      is_valid_GTIN (.str r) = .ok true) :=
  ⟨by decide, by decide,
    C9_roundtrip ("0400638133393".data) (by decide) (by decide) 0 400
      (by decide) (by decide) (by decide) (by decide)⟩

/-- C10: whenever `is_valid_GTIN` answers `True` on a string, the width-14
canonical form has length exactly 14 — the prefix gate only passes original
lengths in 8/12/13/14, the cleaned text is never longer than the original,
and `zfill` pads up to 14, so the arms of `_is_valid_code` for canonical
lengths 8, 12, 13 and 18 are unreachable through `is_valid_GTIN`. -/
theorem C10_canonical_width (s : List Char)
    (h : is_valid_GTIN (.str s) = .ok true) :
    (pyClean (.str s) 14).length = 14 := by
  have hp : is_valid_gtin_pfx_str s = .ok true := by
    cases hres : is_valid_gtin_pfx_str s with
    | ok b =>
      cases b
      · exfalso
        unfold is_valid_GTIN at h
        rw [show is_valid_gtin_pfx (.str s) = .ok false from hres] at h
        dsimp only at h
        exact Bool.noConfusion (Except.ok.inj h)
      · rfl
    | error e =>
      exfalso
      unfold is_valid_GTIN at h
      rw [show is_valid_gtin_pfx (.str s) = .error e from hres] at h
      dsimp only at h
      exact Except.noConfusion h
  have hlen : s.length = 8 ∨ s.length = 12 ∨ s.length = 13 ∨ s.length = 14 := by
    by_contra hn
    push_neg at hn
    unfold is_valid_gtin_pfx_str at hp
    rw [if_neg (by omega : ¬ s.length = 8),
      if_neg (by omega : ¬ (s.length = 12 ∨ s.length = 13 ∨ s.length = 14))] at hp
    exact Bool.noConfusion (Except.ok.inj hp)
  have hsl : (pyStrip (s.filter (fun c => !(c.toNat = 45 : Bool)))).length
      ≤ s.length :=
    le_trans (pyStrip_length_le _) (List.length_filter_le _ s)
  show (zfill (pyStrip (s.filter (fun c => !(c.toNat = 45 : Bool)))) 14).length = 14
  rw [zfill_length]
  omega

/-- Witness for C10 at `"4006381333931"`. -/
theorem C10_witness :
    is_valid_GTIN (.str ("4006381333931".data)) = .ok true ∧
    (pyClean (.str ("4006381333931".data)) 14).length = 14 :=
  ⟨by decide, C10_canonical_width ("4006381333931".data) (by decide)⟩
